import Mathlib

/-!
Verification development for the OrbLink constellation link simulator.

This file gives a shallow embedding of the core of the repository —
`link_budget.py`, `constellations.py` and `simulation.py` — and proves or
refutes the frozen claims about it.  Python floats are modelled as real
numbers (`ℝ`); the IEEE special values that the code produces on purpose
are modelled explicitly: the `-inf` SNR sentinel as `⊥ : EReal`, the `NaN`
distance/latency sentinels as `none : Option ℝ`.
-/

open Real

namespace OrbLink

/-! ## Physical constants (`link_budget.py`, lines 5–7) -/

/-- Constant `BOLTZMANN_CONSTANT = 1.380649e-23` J/K. -/
def BOLTZMANN_CONSTANT : ℝ := 1.380649e-23

/-- Constant `SPEED_OF_LIGHT = 299792458` m/s. -/
def SPEED_OF_LIGHT : ℝ := 299792458

/-! ## Link-budget engine (`link_budget.py`) -/

/-- Embeds `friis_received_power` (`link_budget.py`, lines 9–40).
Received power in dBW: the source computes `wavelength = c / f`,
`path_loss_linear = (4π·d/wavelength)^2`, `path_loss_dB = 10·log10(path_loss_linear)`,
and returns `Pt + Gt + Gr - (path_loss_dB + atmospheric_loss + system_loss)`.
The `Pt_linear`/`Gt_linear`/`Gr_linear` conversions in the source are dead code
(never read) and are not modelled.  This real-valued embedding is the
`distance > 0` regime; `friis_received_powerE` below models the IEEE
behaviour at `distance = 0` (where numpy's `log10` returns `-inf`). -/
noncomputable def friis_received_power (transmit_power_dBW transmit_gain_dBi
    receive_gain_dBi distance_m frequency_Hz : ℝ)
    (atmospheric_loss_dB : ℝ := 2) (system_loss_dB : ℝ := 3) : ℝ :=
  transmit_power_dBW + transmit_gain_dBi + receive_gain_dBi -
    (10 * Real.logb 10 ((4 * Real.pi * distance_m / (SPEED_OF_LIGHT / frequency_Hz)) ^ 2)
      + atmospheric_loss_dB + system_loss_dB)

/-- numpy `log10` as the code uses it, on the extended reals: `log10 0 = -inf`
(numpy emits a `RuntimeWarning` but returns `-inf`, it does not raise).  The
argument at the single call site is a square, so negative inputs (where numpy
would return `NaN`) are unreachable and left at the junk value `logb 10 x`. -/
noncomputable def np_log10 (x : ℝ) : EReal :=
  if x = 0 then ⊥ else ((Real.logb 10 x : ℝ) : EReal)

/-- Embeds `friis_received_power` on the extended reals: the float-faithful version of
lines 9–40 of `link_budget.py`, which also captures what the code does when
`distance_m = 0` (path loss `-inf`, received power `+inf`). -/
noncomputable def friis_received_powerE (transmit_power_dBW transmit_gain_dBi
    receive_gain_dBi distance_m frequency_Hz : ℝ)
    (atmospheric_loss_dB : ℝ := 2) (system_loss_dB : ℝ := 3) : EReal :=
  ((transmit_power_dBW + transmit_gain_dBi + receive_gain_dBi : ℝ) : EReal) -
    (((10 : ℝ) : EReal) * np_log10 ((4 * Real.pi * distance_m / (SPEED_OF_LIGHT / frequency_Hz)) ^ 2)
      + ((atmospheric_loss_dB : ℝ) : EReal) + ((system_loss_dB : ℝ) : EReal))

/-- Embeds `calculate_snr` (`link_budget.py`, lines 42–58): returns the pair
`(snr_dB, snr_linear)` with `snr_linear = 10^(Pr/10) / (k·T·B)` and
`snr_dB = 10·log10(snr_linear)`. -/
noncomputable def calculate_snr (received_power_dBW bandwidth_Hz : ℝ)
    (system_temperature_K : ℝ := 290) : ℝ × ℝ :=
  ((10 : ℝ) * Real.logb 10 ((10 : ℝ) ^ (received_power_dBW / 10) /
      (BOLTZMANN_CONSTANT * system_temperature_K * bandwidth_Hz)),
   (10 : ℝ) ^ (received_power_dBW / 10) /
      (BOLTZMANN_CONSTANT * system_temperature_K * bandwidth_Hz))

/-- Embeds `calculate_link_margin` (`link_budget.py`, lines 60–62). -/
noncomputable def calculate_link_margin (snr_dB : ℝ) (required_snr_dB : ℝ := 10) : ℝ :=
  snr_dB - required_snr_dB

/-- Embeds `is_link_feasible` (`link_budget.py`, lines 64–66): `snr_dB >= required_snr_dB`. -/
def is_link_feasible (snr_dB : ℝ) (required_snr_dB : ℝ := 10) : Prop :=
  required_snr_dB ≤ snr_dB

/-- Embeds `calculate_latency` (`link_budget.py`, lines 68–81): propagation delay
`distance/c × 1000` ms plus the processing delay, with a fixed extra
`+50` ms for ground-station (non-crosslink) links. -/
noncomputable def calculate_latency (distance_m : ℝ) (processing_delay_ms : ℝ := 5)
    (is_crosslink : Bool := false) : ℝ :=
  distance_m / SPEED_OF_LIGHT * 1000 +
    (if is_crosslink then processing_delay_ms else processing_delay_ms + 50)

/-- C6: for fixed transmit power, gains, frequency, losses, bandwidth and
system temperature, and all positive distances `d1 ≤ d2`, the SNR computed at
`d2` is at most the SNR computed at `d1`, and hence `is_link_feasible` never
flips from infeasible to feasible as distance grows. -/
theorem snr_antitone_in_distance (Pt Gt Gr f La Ls B Tk d1 d2 : ℝ)
    (hf : 0 < f) (hB : 0 < B) (hT : 0 < Tk) (h1 : 0 < d1) (h12 : d1 ≤ d2) :
    (calculate_snr (friis_received_power Pt Gt Gr d2 f La Ls) B Tk).1 ≤
      (calculate_snr (friis_received_power Pt Gt Gr d1 f La Ls) B Tk).1 ∧
    (is_link_feasible (calculate_snr (friis_received_power Pt Gt Gr d2 f La Ls) B Tk).1 →
      is_link_feasible (calculate_snr (friis_received_power Pt Gt Gr d1 f La Ls) B Tk).1) := by
  have hc : (0 : ℝ) < SPEED_OF_LIGHT := by norm_num [SPEED_OF_LIGHT]
  have hw : (0 : ℝ) < SPEED_OF_LIGHT / f := div_pos hc hf
  have hx1 : (0 : ℝ) < 4 * Real.pi * d1 / (SPEED_OF_LIGHT / f) := by positivity
  have hx12 : 4 * Real.pi * d1 / (SPEED_OF_LIGHT / f) ≤
      4 * Real.pi * d2 / (SPEED_OF_LIGHT / f) := by
    gcongr
  have hsq : (4 * Real.pi * d1 / (SPEED_OF_LIGHT / f)) ^ 2 ≤
      (4 * Real.pi * d2 / (SPEED_OF_LIGHT / f)) ^ 2 := by
    gcongr
  have hsq1 : (0 : ℝ) < (4 * Real.pi * d1 / (SPEED_OF_LIGHT / f)) ^ 2 := by positivity
  have hlog : Real.logb 10 ((4 * Real.pi * d1 / (SPEED_OF_LIGHT / f)) ^ 2) ≤
      Real.logb 10 ((4 * Real.pi * d2 / (SPEED_OF_LIGHT / f)) ^ 2) :=
    Real.logb_le_logb_of_le (by norm_num) hsq1 hsq
  have hpr : friis_received_power Pt Gt Gr d2 f La Ls ≤
      friis_received_power Pt Gt Gr d1 f La Ls := by
    unfold friis_received_power
    linarith
  have hnoise : (0 : ℝ) < BOLTZMANN_CONSTANT * Tk * B := by
    have hk : (0 : ℝ) < BOLTZMANN_CONSTANT := by norm_num [BOLTZMANN_CONSTANT]
    positivity
  have hsnr : (calculate_snr (friis_received_power Pt Gt Gr d2 f La Ls) B Tk).1 ≤
      (calculate_snr (friis_received_power Pt Gt Gr d1 f La Ls) B Tk).1 := by
    unfold calculate_snr
    have hrp : (10 : ℝ) ^ (friis_received_power Pt Gt Gr d2 f La Ls / 10) ≤
        (10 : ℝ) ^ (friis_received_power Pt Gt Gr d1 f La Ls / 10) :=
      Real.rpow_le_rpow_of_exponent_le (by norm_num) (by linarith)
    have hrp2 : (0 : ℝ) < (10 : ℝ) ^ (friis_received_power Pt Gt Gr d2 f La Ls / 10) :=
      Real.rpow_pos_of_pos (by norm_num) _
    have hdiv : (10 : ℝ) ^ (friis_received_power Pt Gt Gr d2 f La Ls / 10) /
        (BOLTZMANN_CONSTANT * Tk * B) ≤
        (10 : ℝ) ^ (friis_received_power Pt Gt Gr d1 f La Ls / 10) /
        (BOLTZMANN_CONSTANT * Tk * B) := by gcongr
    have hpos : (0 : ℝ) < (10 : ℝ) ^ (friis_received_power Pt Gt Gr d2 f La Ls / 10) /
        (BOLTZMANN_CONSTANT * Tk * B) := div_pos hrp2 hnoise
    have := Real.logb_le_logb_of_le (show (1:ℝ) < 10 by norm_num) hpos hdiv
    simp only
    linarith
  refine ⟨hsnr, fun hfe => ?_⟩
  exact le_trans hfe hsnr

/-- C6 witness: instantiation at concrete parameters. -/
theorem snr_antitone_in_distance_witness :
    (calculate_snr (friis_received_power 20 20 30 2e6 2.4e9 2 3) 1e6 290).1 ≤
      (calculate_snr (friis_received_power 20 20 30 1e6 2.4e9 2 3) 1e6 290).1 :=
  (snr_antitone_in_distance 20 20 30 2.4e9 2 3 1e6 290 1e6 2e6
    (by norm_num) (by norm_num) (by norm_num) (by norm_num) (by norm_num)).1

/-- C8 counterexample: invoking the received-power computation with
`distance_m = 0` does not fail: numpy evaluates `log10(0) = -inf` (a warning,
not an exception), so the path loss is `-inf` dB and the returned received
power is `+inf` dBW — a value that flows on into SNR and the metrics. -/
theorem friis_zero_distance_counterexample :
    friis_received_powerE 20 20 30 0 2.4e9 2 3 = ⊤ := by
  have harg : (4 * Real.pi * (0 : ℝ) / (SPEED_OF_LIGHT / 2.4e9)) ^ 2 = 0 := by
    simp
  unfold friis_received_powerE
  rw [harg]
  unfold np_log10
  rw [if_pos rfl, EReal.coe_mul_bot_of_pos (by norm_num), EReal.bot_add, EReal.bot_add,
    EReal.coe_sub_bot]

/-- C8 amended: at `distance_m = 0` the code silently yields received power
`+∞` dBW (from `log10(0) = -∞` path loss) instead of raising an
invariant-violation error; for every distance `> 0` (and positive frequency)
the path-loss formula is well-defined and the extended-real evaluation agrees
with the finite real-valued one. -/
theorem friis_zero_distance_amended (Pt Gt Gr f La Ls d : ℝ) (hf : 0 < f) (hd : 0 < d) :
    friis_received_powerE Pt Gt Gr 0 f La Ls = ⊤ ∧
    friis_received_powerE Pt Gt Gr d f La Ls =
      ((friis_received_power Pt Gt Gr d f La Ls : ℝ) : EReal) := by
  constructor
  · have harg : (4 * Real.pi * (0 : ℝ) / (SPEED_OF_LIGHT / f)) ^ 2 = 0 := by simp
    unfold friis_received_powerE
    rw [harg]
    unfold np_log10
    rw [if_pos rfl, EReal.coe_mul_bot_of_pos (by norm_num), EReal.bot_add, EReal.bot_add,
      EReal.coe_sub_bot]
  · have hc : (0 : ℝ) < SPEED_OF_LIGHT := by norm_num [SPEED_OF_LIGHT]
    have harg : (0 : ℝ) < (4 * Real.pi * d / (SPEED_OF_LIGHT / f)) ^ 2 := by positivity
    unfold friis_received_powerE friis_received_power np_log10
    rw [if_neg (ne_of_gt harg)]
    push_cast
    ring_nf

/-- C8 amended witness: concrete instantiation at distance 1000 m. -/
theorem friis_zero_distance_amended_witness :
    friis_received_powerE 20 20 30 1000 2.4e9 2 3 =
      ((friis_received_power 20 20 30 1000 2.4e9 2 3 : ℝ) : EReal) :=
  (friis_zero_distance_amended 20 20 30 2.4e9 2 3 1000 (by norm_num) (by norm_num)).2

/-! ## Geometry entities (`constellations.py`) -/

/-- A 3-vector of reals, modelling the numpy arrays used for positions and
velocities. -/
structure Vec3 where
  x : ℝ
  y : ℝ
  z : ℝ

/-- Componentwise difference, modelling `a - b` on numpy arrays. -/
def Vec3.sub (a b : Vec3) : Vec3 :=
  ⟨a.x - b.x, a.y - b.y, a.z - b.z⟩

/-- Models `np.dot`. -/
def Vec3.dot (a b : Vec3) : ℝ :=
  a.x * b.x + a.y * b.y + a.z * b.z

/-- Models `np.linalg.norm`. -/
noncomputable def Vec3.norm (v : Vec3) : ℝ :=
  Real.sqrt (v.x ^ 2 + v.y ^ 2 + v.z ^ 2)

/-- Models `np.arctan2 y x`, via the argument of the complex number `x + y·i`
(same branch cut and range `(-π, π]`). -/
noncomputable def atan2 (y x : ℝ) : ℝ :=
  Complex.arg { re := x, im := y }

/-- Earth radius in meters (`constellations.py`, line 39). -/
def EARTH_RADIUS : ℝ := 6371000

/-- Embeds `Satellite` (`constellations.py`, lines 5–41): identity, mutable
position/velocity state, and RF configuration.  The derived
`orbit_radius` field is modelled as the function `Satellite.orbit_radius`. -/
structure Satellite where
  satellite_id : String
  position : Vec3
  velocity : Vec3
  transmit_power_dBW : ℝ
  antenna_gain_dBi : ℝ
  frequency_GHz : ℝ
  orbit_altitude_km : ℝ

/-- Embeds `self.orbit_radius = self.earth_radius + orbit_altitude_km * 1000`
(`constellations.py`, line 40). -/
noncomputable def Satellite.orbit_radius (s : Satellite) : ℝ :=
  EARTH_RADIUS + s.orbit_altitude_km * 1000

/-- Embeds `Satellite.update_position` (`constellations.py`, lines 86–109):
simplified circular-orbit propagation.  `ω = sqrt(μ / r³)`, the new angle is
`atan2(y, x) + ω·dt`, the position is rewritten to
`(r·cos θ, r·sin θ, z-unchanged)` and the velocity to the tangential vector. -/
noncomputable def Satellite.update_position (s : Satellite) (dt : ℝ) : Satellite :=
  let omega := Real.sqrt (3.986004418e14 / s.orbit_radius ^ 3)
  let new_angle := atan2 s.position.y s.position.x + omega * dt
  { s with
    position := ⟨s.orbit_radius * Real.cos new_angle,
                 s.orbit_radius * Real.sin new_angle,
                 s.position.z⟩,
    velocity := ⟨-omega * s.orbit_radius * Real.sin new_angle,
                 omega * s.orbit_radius * Real.cos new_angle,
                 0⟩ }

/-- Embeds `create_default_constellation` (`constellations.py`, lines 210–249):
`num_satellites` satellites evenly spaced on an equatorial circular orbit of
radius `EARTH_RADIUS + altitude_km·1000`, with default RF parameters.  The
source formats ids as `f"SAT_{i+1:02d}"`; the zero padding of the numeral is
not modelled (ids stay pairwise distinct). -/
noncomputable def create_default_constellation (num_satellites : ℕ := 6)
    (altitude_km : ℝ := 500) : List Satellite :=
  (List.range num_satellites).map fun (i : ℕ) =>
    let orbit_radius := EARTH_RADIUS + altitude_km * 1000
    let angle := 2 * Real.pi * (i : ℝ) / (num_satellites : ℝ)
    let omega := Real.sqrt (3.986004418e14 / orbit_radius ^ 3)
    { satellite_id := "SAT_" ++ toString (i + 1)
      position := ⟨orbit_radius * Real.cos angle, orbit_radius * Real.sin angle, 0⟩
      velocity := ⟨-omega * orbit_radius * Real.sin angle,
                   omega * orbit_radius * Real.cos angle, 0⟩
      transmit_power_dBW := 20
      antenna_gain_dBi := 20
      frequency_GHz := 2.4
      orbit_altitude_km := altitude_km }

/-- One propagation step keeps the satellite exactly on the circle of radius
`orbit_radius` through its current `z` plane: if `z = 0` and the orbit radius
is nonnegative, the new position has norm `orbit_radius`, `z` stays `0`, and
the configuration (hence the orbit radius) is unchanged. -/
theorem update_position_norm (s : Satellite) (dt : ℝ) (hz : s.position.z = 0)
    (hr : 0 ≤ s.orbit_radius) :
    Vec3.norm (s.update_position dt).position = s.orbit_radius ∧
    (s.update_position dt).position.z = 0 ∧
    (s.update_position dt).orbit_altitude_km = s.orbit_altitude_km := by
  unfold Satellite.update_position
  refine ⟨?_, by simpa using hz, rfl⟩
  simp only [Vec3.norm]
  have key : (s.orbit_radius *
        Real.cos (atan2 s.position.y s.position.x +
          Real.sqrt (3.986004418e14 / s.orbit_radius ^ 3) * dt)) ^ 2 +
      (s.orbit_radius *
        Real.sin (atan2 s.position.y s.position.x +
          Real.sqrt (3.986004418e14 / s.orbit_radius ^ 3) * dt)) ^ 2 +
      s.position.z ^ 2 = s.orbit_radius ^ 2 := by
    rw [hz]
    linear_combination (s.orbit_radius : ℝ) ^ 2 *
      Real.sin_sq_add_cos_sq (atan2 s.position.y s.position.x +
        Real.sqrt (3.986004418e14 / s.orbit_radius ^ 3) * dt)
  rw [key]
  exact Real.sqrt_sq hr

/-- Any sequence of `update_position` calls starting from an equatorial
(`z = 0`) satellite whose position norm equals its orbit radius keeps the
norm equal to the (unchanged) orbit radius. -/
theorem foldl_update_position_norm (ds : List ℝ) :
    ∀ s : Satellite, s.position.z = 0 →
      Vec3.norm s.position = s.orbit_radius → 0 ≤ s.orbit_radius →
      Vec3.norm (ds.foldl Satellite.update_position s).position = s.orbit_radius := by
  induction ds with
  | nil => intro s _ hn _; simpa using hn
  | cons dt ds ih =>
    intro s hz hn hr
    obtain ⟨h1, h2, h3⟩ := update_position_norm s dt hz hr
    have hr' : (s.update_position dt).orbit_radius = s.orbit_radius := by
      unfold Satellite.orbit_radius
      rw [h3]
    have := ih (s.update_position dt) h2 (by rw [h1, hr']) (by rw [hr']; exact hr)
    simpa [hr'] using this

/-- C7: for every satellite of the default constellation and every sequence
of `update_position(dt)` calls, the magnitude of the position vector equals
the orbit radius `6,371,000 + altitude·1000` m — in the real-number model the
circular-orbit propagation preserves the radius exactly at every step. -/
theorem position_norm_invariant (n : ℕ) (alt : ℝ) (halt : 0 ≤ alt) (ds : List ℝ)
    (i : ℕ) (hi : i < (create_default_constellation n alt).length) :
    Vec3.norm ((ds.foldl Satellite.update_position
        ((create_default_constellation n alt).get ⟨i, hi⟩)).position) =
      EARTH_RADIUS + alt * 1000 := by
  have hr : (0 : ℝ) ≤ EARTH_RADIUS + alt * 1000 := by
    have : (0 : ℝ) ≤ alt * 1000 := by positivity
    norm_num [EARTH_RADIUS]
    linarith
  have hlen : i < (List.range n).length := by
    simpa [create_default_constellation] using hi
  set s0 := (create_default_constellation n alt).get ⟨i, hi⟩ with hs0
  have hz : s0.position.z = 0 := by
    rw [hs0]
    simp [create_default_constellation]
  have haltkm : s0.orbit_altitude_km = alt := by
    rw [hs0]
    simp [create_default_constellation]
  have hn0 : Vec3.norm s0.position = EARTH_RADIUS + alt * 1000 := by
    rw [hs0]
    simp only [create_default_constellation, List.get_eq_getElem, List.getElem_map,
      List.getElem_range, Vec3.norm]
    have key : ((EARTH_RADIUS + alt * 1000) *
          Real.cos (2 * Real.pi * (i : ℝ) / (n : ℝ))) ^ 2 +
        ((EARTH_RADIUS + alt * 1000) *
          Real.sin (2 * Real.pi * (i : ℝ) / (n : ℝ))) ^ 2 +
        (0 : ℝ) ^ 2 = (EARTH_RADIUS + alt * 1000) ^ 2 := by
      linear_combination ((EARTH_RADIUS + alt * 1000 : ℝ)) ^ 2 *
        Real.sin_sq_add_cos_sq (2 * Real.pi * (i : ℝ) / (n : ℝ))
    rw [key]
    exact Real.sqrt_sq hr
  have hrad : s0.orbit_radius = EARTH_RADIUS + alt * 1000 := by
    unfold Satellite.orbit_radius
    rw [haltkm]
  have := foldl_update_position_norm ds s0 hz (by rw [hn0, hrad]) (by rw [hrad]; exact hr)
  rw [hrad] at this
  exact this

/-- C7 witness: one satellite at 500 km altitude, one 60 s update. -/
theorem position_norm_invariant_witness :
    Vec3.norm (([(60 : ℝ)]).foldl Satellite.update_position
        ((create_default_constellation 1 500).get
          ⟨0, by simp [create_default_constellation]⟩)).position =
      EARTH_RADIUS + 500 * 1000 :=
  position_norm_invariant 1 500 (by norm_num) [(60 : ℝ)] 0
    (by simp [create_default_constellation])

/-- Embeds `GroundStation` (`constellations.py`, lines 112–143): identity, geodetic
configuration and RF parameters.  The ECI position computed once in
`__init__` is modelled as the function `GroundStation.position`. -/
structure GroundStation where
  station_id : String
  latitude_deg : ℝ
  longitude_deg : ℝ
  altitude_m : ℝ
  antenna_gain_dBi : ℝ
  system_temperature_K : ℝ

/-- Embeds `GroundStation._lat_lon_to_eci` (`constellations.py`, lines 145–167):
spherical-to-Cartesian transform with `r = EARTH_RADIUS + alt` and
`np.radians x = x · π/180`. -/
noncomputable def lat_lon_to_eci (lat_deg lon_deg alt_m : ℝ) : Vec3 :=
  let r := EARTH_RADIUS + alt_m
  let lat_rad := lat_deg * (Real.pi / 180)
  let lon_rad := lon_deg * (Real.pi / 180)
  ⟨r * Real.cos lat_rad * Real.cos lon_rad,
   r * Real.cos lat_rad * Real.sin lon_rad,
   r * Real.sin lat_rad⟩

/-- The station's fixed ECI position (`constellations.py`, line 143). -/
noncomputable def GroundStation.position (g : GroundStation) : Vec3 :=
  lat_lon_to_eci g.latitude_deg g.longitude_deg g.altitude_m

/-- Embeds `GroundStation.is_visible` (`constellations.py`, lines 181–207): the
elevation angle of the satellite above the station's local horizon plane,
`degrees(arcsin(v·p / (|v|·|p|)))` with `v` the station-to-satellite vector
and `p` the station position, compared against `min_elevation_deg`.
`Satellite.is_visible` (lines 70–84) computes the identical formula for a
`GroundStation` argument, so this single definition covers both call sites. -/
def GroundStation.is_visible (g : GroundStation) (s : Satellite)
    (min_elevation_deg : ℝ := 0) : Prop :=
  let vec_to_sat := Vec3.sub s.position g.position
  let distance := Vec3.norm vec_to_sat
  min_elevation_deg ≤
    Real.arcsin (Vec3.dot vec_to_sat g.position / (distance * Vec3.norm g.position)) *
      (180 / Real.pi)

/-- Embeds `Satellite.is_visible` applied to another `Satellite`
(`constellations.py`, lines 65–67): unconditionally `True` — satellite-to-
satellite visibility is always assumed in this model. -/
def Satellite.is_visible_sat (_s _other : Satellite) : Bool :=
  true

/-- Embeds `Satellite.compute_distance` to a ground station
(`constellations.py`, lines 42–52). -/
noncomputable def Satellite.compute_distance (s : Satellite) (g : GroundStation) : ℝ :=
  Vec3.norm (Vec3.sub s.position g.position)

/-- Embeds `Satellite.compute_distance` to another satellite
(`constellations.py`, lines 42–52). -/
noncomputable def Satellite.compute_distance_sat (s other : Satellite) : ℝ :=
  Vec3.norm (Vec3.sub s.position other.position)

/-! ## Link evaluation records (`simulation.py`, result dictionaries)

One row of the result `DataFrame`.  The float sentinels the code stores on
purpose are modelled explicitly: `snr_dB` is an `EReal` so that the `-np.inf`
no-link sentinel is `⊥`; `distance_m`/`latency_ms` are `Option ℝ` with `none`
for the `np.nan` sentinel. -/
structure LinkRecord where
  time_step : ℕ
  time_minutes : ℝ
  satellite_id : String
  constellation_type : String
  link_type : String
  ground_station_id : Option String
  distance_m : Option ℝ
  snr_dB : EReal
  is_feasible : Bool
  latency_ms : Option ℝ
  coverage : ℝ

/-! ## Metrics aggregator (`simulation.py`, lines 171–197) -/

/-- The summary dictionary returned by `calculate_coverage_metrics`. -/
structure MetricsSummary where
  coverage_percentage : ℝ
  feasible_percentage : ℝ
  average_latency_ms : ℝ
  average_snr_dB : EReal
  downtime_minutes : ℝ
  uptime_percentage : ℝ

/-- pandas `Series.max` over a column (undefined/`NaN` on an empty frame;
modelled with junk value 0 there, never used by the claims). -/
noncomputable def seriesMax : List ℝ → ℝ
  | [] => 0
  | x :: xs => xs.foldl max x

/-- pandas `Series.min` over a column. -/
noncomputable def seriesMin : List ℝ → ℝ
  | [] => 0
  | x :: xs => xs.foldl min x

/-- Embeds `calculate_coverage_metrics` (`simulation.py`, lines 171–197).
pandas `.mean()` defaults to `skipna=True`: `NaN` entries are dropped from
both the sum and the count, which for the `latency_ms` column (the only one
that can hold `NaN`) is the `filterMap` below.  `-inf` is not `NaN`, so the
`snr_dB` sentinel entries stay in their mean, computed in `EReal`.  The
boolean `is_feasible` column averages `True` as 1.  `downtime` and `uptime`
divide by the elapsed-time span `max - min` of `time_minutes`. -/
noncomputable def calculate_coverage_metrics (df : List LinkRecord) : MetricsSummary :=
  let n : ℝ := df.length
  let coverage_mean := (df.map (·.coverage)).sum / n
  let lat := df.filterMap (·.latency_ms)
  let total_time := seriesMax (df.map (·.time_minutes)) - seriesMin (df.map (·.time_minutes))
  let downtime := total_time * (1 - coverage_mean)
  { coverage_percentage := coverage_mean * 100
    feasible_percentage := (df.map fun r => if r.is_feasible then (1 : ℝ) else 0).sum / n * 100
    average_latency_ms := lat.sum / (lat.length : ℝ)
    average_snr_dB := (df.map (·.snr_dB)).sum * ((n⁻¹ : ℝ) : EReal)
    downtime_minutes := downtime
    uptime_percentage := 100 - downtime / total_time * 100 }

/-- C5: any record stream whose `(is_feasible, latency_ms)` column contents
are exactly three feasible entries with latencies 10, 20, 30 ms and two
infeasible entries with `NaN` latency has `average_latency_ms = 20` (the
`NaN` entries are excluded from the mean, not propagated) and
`feasible_percentage = 60`. -/
theorem nan_excluded_latency_mean (rs : List LinkRecord)
    (h : List.Perm (rs.map fun r => (r.is_feasible, r.latency_ms))
      [(true, some 10), (true, some 20), (true, some 30), (false, none), (false, none)]) :
    (calculate_coverage_metrics rs).average_latency_ms = 20 ∧
    (calculate_coverage_metrics rs).feasible_percentage = 60 := by
  have hlen : rs.length = 5 := by
    have := h.length_eq
    simpa using this
  have hlat : List.Perm (rs.filterMap (·.latency_ms)) [(10 : ℝ), 20, 30] := by
    have h2 := h.filterMap (fun x => x.2)
    rw [List.filterMap_map] at h2
    simpa using h2
  have hfeas : List.Perm (rs.map fun r => if r.is_feasible then (1 : ℝ) else 0)
      [(1 : ℝ), 1, 1, 0, 0] := by
    have h2 := h.map (fun x => if x.1 then (1 : ℝ) else 0)
    rw [List.map_map] at h2
    simpa using h2
  constructor
  · show (rs.filterMap (·.latency_ms)).sum / ((rs.filterMap (·.latency_ms)).length : ℝ) = 20
    rw [hlat.sum_eq, hlat.length_eq]
    norm_num
  · show (rs.map fun r => if r.is_feasible then (1 : ℝ) else 0).sum / (rs.length : ℝ) * 100 = 60
    rw [hfeas.sum_eq, hlen]
    norm_num

/-- C5 witness: the concrete five-record stream. -/
theorem nan_excluded_latency_mean_witness :
    (calculate_coverage_metrics
      ([{ time_step := 0, time_minutes := 0, satellite_id := "S", constellation_type := "g",
          link_type := "satellite_to_ground", ground_station_id := none, distance_m := none,
          snr_dB := 0, is_feasible := true, latency_ms := some 10, coverage := 1 },
        { time_step := 1, time_minutes := 1, satellite_id := "S", constellation_type := "g",
          link_type := "satellite_to_ground", ground_station_id := none, distance_m := none,
          snr_dB := 0, is_feasible := true, latency_ms := some 20, coverage := 1 },
        { time_step := 2, time_minutes := 2, satellite_id := "S", constellation_type := "g",
          link_type := "satellite_to_ground", ground_station_id := none, distance_m := none,
          snr_dB := 0, is_feasible := true, latency_ms := some 30, coverage := 1 },
        { time_step := 3, time_minutes := 3, satellite_id := "S", constellation_type := "g",
          link_type := "satellite_to_ground", ground_station_id := none, distance_m := none,
          snr_dB := ⊥, is_feasible := false, latency_ms := none, coverage := 0 },
        { time_step := 4, time_minutes := 4, satellite_id := "S", constellation_type := "g",
          link_type := "satellite_to_ground", ground_station_id := none, distance_m := none,
          snr_dB := ⊥, is_feasible := false, latency_ms := none, coverage := 0 }] :
        List LinkRecord)).average_latency_ms = 20 :=
  (nan_excluded_latency_mean _ (by simp)).1

/-- Sums in `EReal` absorb the `-∞` sentinel. -/
theorem ereal_sum_eq_bot {l : List EReal} (h : ⊥ ∈ l) : l.sum = ⊥ := by
  induction l with
  | nil => simp at h
  | cons a t ih =>
    rcases List.mem_cons.mp h with ha | ht
    · rw [List.sum_cons, ← ha, EReal.bot_add]
    · rw [List.sum_cons, ih ht, EReal.add_bot]

/-- C9: `average_snr_dB` is the mean over the `snr_dB` field of all records
with no exclusion of sentinel entries, so any stream containing a no-link
record with `snr_dB = -∞` has `average_snr_dB = -∞`. -/
theorem sentinel_snr_mean (rs : List LinkRecord) (h : ∃ r ∈ rs, r.snr_dB = ⊥) :
    (calculate_coverage_metrics rs).average_snr_dB = ⊥ := by
  obtain ⟨r, hr, hbot⟩ := h
  have hmem : (⊥ : EReal) ∈ rs.map (·.snr_dB) := List.mem_map.mpr ⟨r, hr, hbot⟩
  have hsum : (rs.map (·.snr_dB)).sum = ⊥ := ereal_sum_eq_bot hmem
  have hpos : (0 : ℝ) < ((rs.length : ℝ))⁻¹ := by
    have : 0 < rs.length := List.length_pos.mpr (List.ne_nil_of_mem hr)
    have h0 : (0 : ℝ) < (rs.length : ℝ) := by exact_mod_cast this
    positivity
  show (rs.map (·.snr_dB)).sum * (((rs.length : ℝ)⁻¹ : ℝ) : EReal) = ⊥
  rw [hsum]
  exact EReal.bot_mul_coe_of_pos hpos

/-- C9 witness: a single sentinel record. -/
theorem sentinel_snr_mean_witness :
    (calculate_coverage_metrics
      ([{ time_step := 0, time_minutes := 0, satellite_id := "S", constellation_type := "g",
          link_type := "satellite_to_ground", ground_station_id := none, distance_m := none,
          snr_dB := ⊥, is_feasible := false, latency_ms := none, coverage := 0 }] :
        List LinkRecord)).average_snr_dB = ⊥ :=
  sentinel_snr_mean _ ⟨_, List.mem_singleton_self _, rfl⟩

/-- C10: whenever the `time_minutes` values span a nonzero interval, the
`uptime_percentage` returned by `calculate_coverage_metrics` collapses to
`100 × mean(coverage)` — it always equals `coverage_percentage` exactly. -/
theorem uptime_equals_coverage (rs : List LinkRecord)
    (hlt : seriesMin (rs.map (·.time_minutes)) < seriesMax (rs.map (·.time_minutes))) :
    (calculate_coverage_metrics rs).uptime_percentage =
      (calculate_coverage_metrics rs).coverage_percentage ∧
    (calculate_coverage_metrics rs).uptime_percentage =
      100 * ((rs.map (·.coverage)).sum / (rs.length : ℝ)) := by
  have htt : seriesMax (rs.map (·.time_minutes)) - seriesMin (rs.map (·.time_minutes)) ≠ 0 :=
    sub_ne_zero.mpr (ne_of_gt hlt)
  have key : (calculate_coverage_metrics rs).uptime_percentage =
      100 * ((rs.map (·.coverage)).sum / (rs.length : ℝ)) := by
    show 100 - (seriesMax (rs.map (·.time_minutes)) - seriesMin (rs.map (·.time_minutes))) *
        (1 - (rs.map (·.coverage)).sum / (rs.length : ℝ)) /
        (seriesMax (rs.map (·.time_minutes)) - seriesMin (rs.map (·.time_minutes))) * 100 =
      100 * ((rs.map (·.coverage)).sum / (rs.length : ℝ))
    rw [mul_div_cancel_left₀ _ htt]
    ring
  refine ⟨?_, key⟩
  rw [key]
  show 100 * ((rs.map (·.coverage)).sum / (rs.length : ℝ)) =
    (rs.map (·.coverage)).sum / (rs.length : ℝ) * 100
  ring

/-- C10 witness: two records at 0 and 90 minutes. -/
theorem uptime_equals_coverage_witness :
    (calculate_coverage_metrics
      ([{ time_step := 0, time_minutes := 0, satellite_id := "S", constellation_type := "g",
          link_type := "satellite_to_ground", ground_station_id := none, distance_m := none,
          snr_dB := 0, is_feasible := true, latency_ms := some 10, coverage := 1 },
        { time_step := 1, time_minutes := 90, satellite_id := "S", constellation_type := "g",
          link_type := "satellite_to_ground", ground_station_id := none, distance_m := none,
          snr_dB := ⊥, is_feasible := false, latency_ms := none, coverage := 0 }] :
        List LinkRecord)).uptime_percentage =
    (calculate_coverage_metrics
      ([{ time_step := 0, time_minutes := 0, satellite_id := "S", constellation_type := "g",
          link_type := "satellite_to_ground", ground_station_id := none, distance_m := none,
          snr_dB := 0, is_feasible := true, latency_ms := some 10, coverage := 1 },
        { time_step := 1, time_minutes := 90, satellite_id := "S", constellation_type := "g",
          link_type := "satellite_to_ground", ground_station_id := none, distance_m := none,
          snr_dB := ⊥, is_feasible := false, latency_ms := none, coverage := 0 }] :
        List LinkRecord)).coverage_percentage :=
  (uptime_equals_coverage _ (by norm_num [seriesMin, seriesMax])).1

/-! ## Constellation simulator (`simulation.py`, lines 7–169)

The step loops of `simulate_ground_station_only` and `simulate_crosslinked`
are embedded as state-passing recursions, parametric over the physics
functions they call (position update, visibility test, SNR, distance,
feasibility, latency).  The instantiations with the genuine functions of
`link_budget.py`/`constellations.py` are `realGroundPhysics` and
`realCrossPhysics` below; the structural theorems hold for every
instantiation, hence for the real one. -/

/-- The functions `simulate_ground_station_only` calls per candidate link
(`simulation.py`, lines 27–56). -/
structure GroundPhysics where
  update : Satellite → ℝ → Satellite
  visible : GroundStation → Satellite → Bool
  snrOf : Satellite → GroundStation → ℝ
  distOf : Satellite → GroundStation → ℝ
  feasible : ℝ → Bool
  latency : ℝ → ℝ

/-- One iteration of the best-ground-station loop (`simulation.py`,
lines 34–52).  The source starts from `best_gs = None`, `best_snr = -inf`,
`best_distance = inf` and replaces the triple whenever a visible station has
`snr_dB > best_snr`; since `calculate_snr` returns a (finite) real, the
comparison against the initial `-inf` always succeeds, so the initial
sentinel triple is modelled as `none`. -/
noncomputable def bestStep (P : GroundPhysics) (sat : Satellite)
    (acc : Option (GroundStation × ℝ × ℝ)) (gs : GroundStation) :
    Option (GroundStation × ℝ × ℝ) :=
  if P.visible gs sat then
    match acc with
    | none => some (gs, P.snrOf sat gs, P.distOf sat gs)
    | some (_, best_snr, _) =>
        if best_snr < P.snrOf sat gs then some (gs, P.snrOf sat gs, P.distOf sat gs)
        else acc
  else acc

/-- The best-link search over all ground stations (`simulation.py`,
lines 30–52). -/
noncomputable def find_best_gs (P : GroundPhysics) (sat : Satellite)
    (gss : List GroundStation) : Option (GroundStation × ℝ × ℝ) :=
  gss.foldl (bestStep P sat) none

/-- The record appended per satellite per step (`simulation.py`,
lines 54–70), including the sentinel row when no station was visible. -/
noncomputable def ground_record (P : GroundPhysics) (step : ℕ) (dt : ℝ)
    (sat : Satellite) (gss : List GroundStation) : LinkRecord :=
  match find_best_gs P sat gss with
  | some (gs, best_snr, best_distance) =>
      { time_step := step
        time_minutes := step * dt / 60
        satellite_id := sat.satellite_id
        constellation_type := "ground_station_only"
        link_type := "satellite_to_ground"
        ground_station_id := some gs.station_id
        distance_m := some best_distance
        snr_dB := (best_snr : EReal)
        is_feasible := P.feasible best_snr
        latency_ms := some (P.latency best_distance)
        coverage := if P.feasible best_snr then 1 else 0 }
  | none =>
      { time_step := step
        time_minutes := step * dt / 60
        satellite_id := sat.satellite_id
        constellation_type := "ground_station_only"
        link_type := "satellite_to_ground"
        ground_station_id := none
        distance_m := none
        snr_dB := ⊥
        is_feasible := false
        latency_ms := none
        coverage := 0 }

/-- The step loop of `simulate_ground_station_only` (`simulation.py`,
lines 22–70): at each step every satellite is advanced by `dt` and then one
record is appended for it.  (The source interleaves update and evaluation
per satellite inside one step; satellites do not interact and the stations
are static, so advancing all satellites first is the same computation.) -/
noncomputable def sim_go_aux (P : GroundPhysics) (dt : ℝ) (gss : List GroundStation) :
    ℕ → ℕ → List Satellite → List LinkRecord
  | 0, _, _ => []
  | n + 1, step, sats =>
      let sats' := sats.map fun s => P.update s dt
      (sats'.map fun s => ground_record P step dt s gss) ++
        sim_go_aux P dt gss n (step + 1) sats'

/-- Embeds `ConstellationSimulator.simulate_ground_station_only`
(`simulation.py`, lines 15–72): `dt = orbit_period_minutes·60 / time_steps`,
then the step loop from step 0. -/
noncomputable def simulate_ground_station_only (P : GroundPhysics)
    (sats : List Satellite) (gss : List GroundStation)
    (time_steps : ℕ) (orbit_period_minutes : ℝ) : List LinkRecord :=
  sim_go_aux P (orbit_period_minutes * 60 / time_steps) gss time_steps 0 sats

open scoped Classical

/-- The genuine ground-only physics: the actual `update_position`,
`is_visible`, `compute_distance`, `friis_received_power`/`calculate_snr`
chain (bandwidth `1e6` Hz, station noise temperature), `is_link_feasible`
with the default 10 dB threshold, and ground latency
(`is_crosslink=False`). -/
noncomputable def realGroundPhysics : GroundPhysics where
  update := Satellite.update_position
  visible := fun gs sat => decide (gs.is_visible sat)
  snrOf := fun sat gs =>
    (calculate_snr
      (friis_received_power sat.transmit_power_dBW sat.antenna_gain_dBi gs.antenna_gain_dBi
        (sat.compute_distance gs) (sat.frequency_GHz * 1e9))
      1e6 gs.system_temperature_K).1
  distOf := fun sat gs => sat.compute_distance gs
  feasible := fun snr => decide (is_link_feasible snr)
  latency := fun d => calculate_latency d

/-- The functions `simulate_crosslinked` calls (`simulation.py`,
lines 85–137). -/
structure CrossPhysics where
  update : Satellite → ℝ → Satellite
  visibleGS : GroundStation → Satellite → Bool
  snrSat : Satellite → Satellite → ℝ
  distSat : Satellite → Satellite → ℝ
  snrGS : Satellite → GroundStation → ℝ
  distGS : Satellite → GroundStation → ℝ
  feasible : ℝ → Bool
  latencySat : ℝ → ℝ
  latencyGS : ℝ → ℝ

/-- The satellite-to-satellite record (`simulation.py`, lines 107–119). -/
noncomputable def cross_sat_record (P : CrossPhysics) (step : ℕ) (dt : ℝ)
    (sat1 sat2 : Satellite) : LinkRecord :=
  { time_step := step
    time_minutes := step * dt / 60
    satellite_id := sat1.satellite_id
    constellation_type := "crosslinked"
    link_type := "satellite_to_satellite"
    ground_station_id := none
    distance_m := some (P.distSat sat1 sat2)
    snr_dB := (P.snrSat sat1 sat2 : EReal)
    is_feasible := P.feasible (P.snrSat sat1 sat2)
    latency_ms := some (P.latencySat (P.distSat sat1 sat2))
    coverage := if P.feasible (P.snrSat sat1 sat2) then 1 else 0 }

/-- The satellite-to-ground record of the crosslinked policy
(`simulation.py`, lines 139–151). -/
noncomputable def cross_gs_record (P : CrossPhysics) (step : ℕ) (dt : ℝ)
    (sat : Satellite) (gs : GroundStation) : LinkRecord :=
  { time_step := step
    time_minutes := step * dt / 60
    satellite_id := sat.satellite_id
    constellation_type := "crosslinked"
    link_type := "satellite_to_ground"
    ground_station_id := some gs.station_id
    distance_m := some (P.distGS sat gs)
    snr_dB := (P.snrGS sat gs : EReal)
    is_feasible := P.feasible (P.snrGS sat gs)
    latency_ms := some (P.latencyGS (P.distGS sat gs))
    coverage := if P.feasible (P.snrGS sat gs) then 1 else 0 }

/-- The pair loop `for i, sat1: for sat2 in satellites[i+1:]`
(`simulation.py`, lines 89–119), guarded by `sat1.is_visible(sat2)`. -/
noncomputable def cross_pairs (P : CrossPhysics) (step : ℕ) (dt : ℝ) :
    List Satellite → List LinkRecord
  | [] => []
  | s1 :: rest =>
      (rest.filterMap fun s2 =>
        if Satellite.is_visible_sat s1 s2 then some (cross_sat_record P step dt s1 s2)
        else none) ++
      cross_pairs P step dt rest

/-- The ground sub-loop of the crosslinked policy (`simulation.py`,
lines 121–151); the caller passes `gss.take 2` for the source's
`self.ground_stations[:2]`. -/
noncomputable def cross_ground (P : CrossPhysics) (step : ℕ) (dt : ℝ)
    (gss2 : List GroundStation) : List Satellite → List LinkRecord
  | [] => []
  | sat :: rest =>
      (gss2.filterMap fun gs =>
        if P.visibleGS gs sat then some (cross_gs_record P step dt sat gs) else none) ++
      cross_ground P step dt gss2 rest

/-- The step loop of `simulate_crosslinked` (`simulation.py`, lines 81–151):
all satellites are advanced first, then all pairs are enumerated, then every
satellite is checked against the first two ground stations. -/
noncomputable def sim_cross_aux (P : CrossPhysics) (dt : ℝ) (gss : List GroundStation) :
    ℕ → ℕ → List Satellite → List LinkRecord
  | 0, _, _ => []
  | n + 1, step, sats =>
      let sats' := sats.map fun s => P.update s dt
      (cross_pairs P step dt sats' ++ cross_ground P step dt (gss.take 2) sats') ++
        sim_cross_aux P dt gss n (step + 1) sats'

/-- Embeds `ConstellationSimulator.simulate_crosslinked` (`simulation.py`,
lines 74–153). -/
noncomputable def simulate_crosslinked (P : CrossPhysics)
    (sats : List Satellite) (gss : List GroundStation)
    (time_steps : ℕ) (orbit_period_minutes : ℝ) : List LinkRecord :=
  sim_cross_aux P (orbit_period_minutes * 60 / time_steps) gss time_steps 0 sats

/-- The genuine crosslinked physics: crosslink SNR uses noise temperature
290 K (`simulation.py`, line 103), crosslink latency `is_crosslink=True`,
ground links as in the ground-only policy. -/
noncomputable def realCrossPhysics : CrossPhysics where
  update := Satellite.update_position
  visibleGS := fun gs sat => decide (gs.is_visible sat)
  snrSat := fun s1 s2 =>
    (calculate_snr
      (friis_received_power s1.transmit_power_dBW s1.antenna_gain_dBi s2.antenna_gain_dBi
        (s1.compute_distance_sat s2) (s1.frequency_GHz * 1e9))
      1e6 290).1
  distSat := fun s1 s2 => s1.compute_distance_sat s2
  snrGS := fun sat gs =>
    (calculate_snr
      (friis_received_power sat.transmit_power_dBW sat.antenna_gain_dBi gs.antenna_gain_dBi
        (sat.compute_distance gs) (sat.frequency_GHz * 1e9))
      1e6 gs.system_temperature_K).1
  distGS := fun sat gs => sat.compute_distance gs
  feasible := fun snr => decide (is_link_feasible snr)
  latencySat := fun d => calculate_latency d 5 true
  latencyGS := fun d => calculate_latency d 5 false

/-- Embeds `ConstellationSimulator.run_comparison_simulation` (`simulation.py`,
lines 155–169).  The source performs no configuration validation at all: it
immediately runs both policies.  The only failure mode on the modelled
domain is the `ZeroDivisionError` raised while computing
`dt = (orbit_period_minutes * 60) / time_steps` when `time_steps == 0`
(a Python ZeroDivisionError, not a configuration check; a negative
`time_steps` in Python simply makes `range(time_steps)` empty, like
`time_steps = 0` would here if the division did not raise first). -/
noncomputable def run_comparison_simulation (PG : GroundPhysics) (PC : CrossPhysics)
    (sats : List Satellite) (gss : List GroundStation)
    (time_steps : ℕ) (orbit_period_minutes : ℝ) :
    Except String (List LinkRecord × List LinkRecord) :=
  if time_steps = 0 then Except.error "ZeroDivisionError: division by zero"
  else
    Except.ok (simulate_ground_station_only PG sats gss time_steps orbit_period_minutes,
      simulate_crosslinked PC sats gss time_steps orbit_period_minutes)

/-- Applies `k` repeated in-place position updates with a fixed `dt`, as the step
loop applies them (the satellite state before the record of step `k` is the
initial state updated `k+1` times). -/
def iterUpdate (upd : Satellite → ℝ → Satellite) (dt : ℝ) (k : ℕ) (s : Satellite) : Satellite :=
  (fun s => upd s dt)^[k] s

/-! ### Structure lemmas for the ground-only policy -/

/-- The `best_snr` value held by the best-link accumulator (`-inf` for the
initial `None` state). -/
noncomputable def accSnr : Option (GroundStation × ℝ × ℝ) → EReal
  | none => ⊥
  | some (_, sn, _) => (sn : EReal)

theorem bestStep_snr_le (P : GroundPhysics) (sat : Satellite)
    (acc : Option (GroundStation × ℝ × ℝ)) (gs : GroundStation) :
    accSnr acc ≤ accSnr (bestStep P sat acc gs) := by
  cases hv : P.visible gs sat with
  | false => simp [bestStep, hv]
  | true =>
    cases acc with
    | none => simp [bestStep, hv, accSnr]
    | some t =>
      obtain ⟨b0, sn0, d0⟩ := t
      by_cases hlt : sn0 < P.snrOf sat gs
      · simp only [bestStep, hv, if_true, if_pos hlt, accSnr]
        exact EReal.coe_le_coe_iff.mpr (le_of_lt hlt)
      · simp [bestStep, hv, hlt, accSnr]

theorem bestStep_visible_le (P : GroundPhysics) (sat : Satellite)
    (acc : Option (GroundStation × ℝ × ℝ)) (gs : GroundStation)
    (h : P.visible gs sat = true) :
    ((P.snrOf sat gs : ℝ) : EReal) ≤ accSnr (bestStep P sat acc gs) := by
  cases acc with
  | none => simp [bestStep, h, accSnr]
  | some t =>
    obtain ⟨b0, sn0, d0⟩ := t
    by_cases hlt : sn0 < P.snrOf sat gs
    · simp [bestStep, h, hlt, accSnr]
    · simp only [bestStep, h, if_true, if_neg hlt, accSnr]
      exact EReal.coe_le_coe_iff.mpr (le_of_not_lt hlt)

theorem foldl_best_snr_le (P : GroundPhysics) (sat : Satellite) :
    ∀ (gss : List GroundStation) (acc : Option (GroundStation × ℝ × ℝ)),
      accSnr acc ≤ accSnr (gss.foldl (bestStep P sat) acc) := by
  intro gss
  induction gss with
  | nil => intro acc; simp
  | cons a t ih =>
    intro acc
    rw [List.foldl_cons]
    exact le_trans (bestStep_snr_le P sat acc a) (ih (bestStep P sat acc a))

theorem foldl_best_visible_le (P : GroundPhysics) (sat : Satellite) :
    ∀ (gss : List GroundStation) (acc : Option (GroundStation × ℝ × ℝ))
      (g : GroundStation), g ∈ gss → P.visible g sat = true →
      ((P.snrOf sat g : ℝ) : EReal) ≤ accSnr (gss.foldl (bestStep P sat) acc) := by
  intro gss
  induction gss with
  | nil => intro acc g hg; simp at hg
  | cons a t ih =>
    intro acc g hg hv
    rw [List.foldl_cons]
    rcases List.mem_cons.mp hg with rfl | hgt
    · exact le_trans (bestStep_visible_le P sat acc g hv) (foldl_best_snr_le P sat t _)
    · exact ih _ g hgt hv

theorem foldl_best_shape (P : GroundPhysics) (sat : Satellite) :
    ∀ (gss : List GroundStation) (acc : Option (GroundStation × ℝ × ℝ)),
      gss.foldl (bestStep P sat) acc = acc ∨
      ∃ b ∈ gss, P.visible b sat = true ∧
        gss.foldl (bestStep P sat) acc = some (b, P.snrOf sat b, P.distOf sat b) := by
  intro gss
  induction gss with
  | nil => intro acc; left; rfl
  | cons a t ih =>
    intro acc
    rw [List.foldl_cons]
    rcases ih (bestStep P sat acc a) with heq | ⟨b, hb, hv, heq⟩
    · rw [heq]
      cases hv : P.visible a sat with
      | false => left; simp [bestStep, hv]
      | true =>
        cases acc with
        | none =>
          right
          exact ⟨a, List.mem_cons_self a t, hv, by simp [bestStep, hv]⟩
        | some tr =>
          obtain ⟨b0, sn0, d0⟩ := tr
          by_cases hlt : sn0 < P.snrOf sat a
          · right
            exact ⟨a, List.mem_cons_self a t, hv, by simp [bestStep, hv, hlt]⟩
          · left
            simp [bestStep, hv, hlt]
    · right
      exact ⟨b, List.mem_cons_of_mem a hb, hv, heq⟩

/-- If at least one station is visible, the best-link search returns a
visible station whose SNR is maximal among the visible stations. -/
theorem find_best_gs_some (P : GroundPhysics) (sat : Satellite)
    (gss : List GroundStation) (hvis : ∃ g ∈ gss, P.visible g sat = true) :
    ∃ b ∈ gss, P.visible b sat = true ∧
      find_best_gs P sat gss = some (b, P.snrOf sat b, P.distOf sat b) ∧
      ∀ g ∈ gss, P.visible g sat = true → P.snrOf sat g ≤ P.snrOf sat b := by
  obtain ⟨g0, hg0, hv0⟩ := hvis
  have hle := foldl_best_visible_le P sat gss none g0 hg0 hv0
  rcases foldl_best_shape P sat gss none with heq | ⟨b, hb, hv, heq⟩
  · rw [heq] at hle
    exact absurd hle (by simp [accSnr])
  · refine ⟨b, hb, hv, heq, ?_⟩
    intro g hg hvg
    have h2 := foldl_best_visible_le P sat gss none g hg hvg
    rw [heq] at h2
    simpa [accSnr] using h2

/-- If no station is visible, the best-link search returns `None`. -/
theorem find_best_gs_none (P : GroundPhysics) (sat : Satellite)
    (gss : List GroundStation) (hnone : ∀ g ∈ gss, P.visible g sat = false) :
    find_best_gs P sat gss = none := by
  rcases foldl_best_shape P sat gss none with heq | ⟨b, hb, hv, heq⟩
  · exact heq
  · rw [hnone b hb] at hv
    simp at hv

theorem ground_record_time_step (P : GroundPhysics) (step : ℕ) (dt : ℝ)
    (sat : Satellite) (gss : List GroundStation) :
    (ground_record P step dt sat gss).time_step = step := by
  unfold ground_record
  rcases find_best_gs P sat gss with _ | ⟨g, sn, d⟩ <;> rfl

theorem ground_record_sat_id (P : GroundPhysics) (step : ℕ) (dt : ℝ)
    (sat : Satellite) (gss : List GroundStation) :
    (ground_record P step dt sat gss).satellite_id = sat.satellite_id := by
  unfold ground_record
  rcases find_best_gs P sat gss with _ | ⟨g, sn, d⟩ <;> rfl

theorem sim_go_aux_length (P : GroundPhysics) (dt : ℝ) (gss : List GroundStation) :
    ∀ (n stepZ : ℕ) (sats : List Satellite),
      (sim_go_aux P dt gss n stepZ sats).length = n * sats.length := by
  intro n
  induction n with
  | zero => intro stepZ sats; simp [sim_go_aux]
  | succ m ih =>
    intro stepZ sats
    simp only [sim_go_aux, List.length_append, List.length_map, ih]
    ring

theorem sim_go_aux_time_ge (P : GroundPhysics) (dt : ℝ) (gss : List GroundStation) :
    ∀ (n stepZ : ℕ) (sats : List Satellite) (r : LinkRecord),
      r ∈ sim_go_aux P dt gss n stepZ sats → stepZ ≤ r.time_step := by
  intro n
  induction n with
  | zero => intro _ _ r hr; simp [sim_go_aux] at hr
  | succ m ih =>
    intro stepZ sats r hr
    simp only [sim_go_aux] at hr
    rcases List.mem_append.mp hr with h1 | h2
    · obtain ⟨s, _, rfl⟩ := List.mem_map.mp h1
      exact le_of_eq (ground_record_time_step P stepZ dt s gss).symm
    · exact le_trans (Nat.le_succ stepZ) (ih (stepZ + 1) _ r h2)

/-- The per-step slice of the ground-only stream: the records whose
`time_step` is `stepZ + j` are exactly one record per satellite, evaluated at
the satellite state after `j + 1` updates. -/
theorem sim_go_aux_filter (P : GroundPhysics) (dt : ℝ) (gss : List GroundStation) :
    ∀ (n stepZ j : ℕ) (sats : List Satellite), j < n →
      (sim_go_aux P dt gss n stepZ sats).filter (fun r => r.time_step == stepZ + j) =
        (sats.map (iterUpdate P.update dt (j + 1))).map
          fun s => ground_record P (stepZ + j) dt s gss := by
  intro n
  induction n with
  | zero => intro stepZ j sats hj; exact absurd hj (Nat.not_lt_zero j)
  | succ m ih =>
    intro stepZ j sats hj
    simp only [sim_go_aux]
    rw [List.filter_append]
    cases j with
    | zero =>
      have hl : ((sats.map fun s => P.update s dt).map
            fun s => ground_record P stepZ dt s gss).filter
            (fun r => r.time_step == stepZ + 0) =
          (sats.map fun s => P.update s dt).map
            fun s => ground_record P stepZ dt s gss := by
        apply List.filter_eq_self.mpr
        intro r hr
        obtain ⟨s, _, rfl⟩ := List.mem_map.mp hr
        simp [ground_record_time_step]
      have hrest : (sim_go_aux P dt gss m (stepZ + 1)
            (sats.map fun s => P.update s dt)).filter
            (fun r => r.time_step == stepZ + 0) = [] := by
        rw [List.filter_eq_nil_iff]
        intro r hr
        have := sim_go_aux_time_ge P dt gss m (stepZ + 1) _ r hr
        simp only [beq_iff_eq]
        omega
      rw [hl, hrest, List.append_nil, List.map_map, List.map_map]
      apply List.map_congr_left
      intro s _
      simp [iterUpdate, Function.comp]
    | succ j' =>
      have hl : ((sats.map fun s => P.update s dt).map
            fun s => ground_record P stepZ dt s gss).filter
            (fun r => r.time_step == stepZ + (j' + 1)) = [] := by
        rw [List.filter_eq_nil_iff]
        intro r hr
        obtain ⟨s, _, rfl⟩ := List.mem_map.mp hr
        simp only [ground_record_time_step, beq_iff_eq]
        omega
      rw [hl, List.nil_append]
      have harg : ∀ r : LinkRecord, (r.time_step == stepZ + (j' + 1)) =
          (r.time_step == stepZ + 1 + j') := by
        intro r
        have : stepZ + (j' + 1) = stepZ + 1 + j' := by omega
        rw [this]
      simp only [harg]
      rw [ih (stepZ + 1) j' (sats.map fun s => P.update s dt) (by omega)]
      have hstep2 : stepZ + 1 + j' = stepZ + (j' + 1) := by omega
      rw [hstep2]
      have hinner : (sats.map fun s => P.update s dt).map (iterUpdate P.update dt (j' + 1)) =
          sats.map (iterUpdate P.update dt (j' + 1 + 1)) := by
        rw [List.map_map]
        apply List.map_congr_left
        intro s _
        show (fun s => P.update s dt)^[j' + 1] (P.update s dt) =
          (fun s => P.update s dt)^[j' + 1 + 1] s
        exact (Function.iterate_succ_apply _ _ _).symm
      rw [hinner]

/-- The record emitted for satellite `i` at step `step` of the ground-only
policy, extracted from the full stream by filtering on the step and
indexing by the satellite. -/
theorem sim_go_record_at (P : GroundPhysics) (sats : List Satellite)
    (gss : List GroundStation) (T : ℕ) (period : ℝ)
    (step i : ℕ) (hstep : step < T) (hi : i < sats.length) :
    ((simulate_ground_station_only P sats gss T period).filter
        (fun r => r.time_step == step))[i]? =
      some (ground_record P step (period * 60 / T)
        (iterUpdate P.update (period * 60 / T) (step + 1) (sats.get ⟨i, hi⟩)) gss) := by
  unfold simulate_ground_station_only
  have hfil := sim_go_aux_filter P (period * 60 / T) gss T 0 step sats hstep
  simp only [Nat.zero_add] at hfil
  rw [hfil, List.map_map, List.getElem?_map]
  rw [List.getElem?_eq_getElem hi]
  rfl

theorem iterUpdate_sat_id (upd : Satellite → ℝ → Satellite)
    (hid : ∀ s dt, (upd s dt).satellite_id = s.satellite_id) (dt : ℝ) :
    ∀ (k : ℕ) (s : Satellite), (iterUpdate upd dt k s).satellite_id = s.satellite_id := by
  intro k
  induction k with
  | zero => intro s; rfl
  | succ m ih =>
    intro s
    have : iterUpdate upd dt (m + 1) s = iterUpdate upd dt m (upd s dt) := by
      simp [iterUpdate, Function.iterate_succ_apply]
    rw [this, ih (upd s dt), hid]

/-- C1: under the ground-only policy every satellite gets exactly one record
per time step (`T · N` records in total, `N` per step slice), and whenever at
least one ground station is visible from the satellite's updated position,
the emitted record's `ground_station_id` is the visible station whose
computed SNR is maximal — strictly above every other visible station when the
SNR values are pairwise distinct. -/
theorem ground_only_one_record_best_snr (P : GroundPhysics)
    (sats : List Satellite) (gss : List GroundStation) (T : ℕ) (period : ℝ)
    (hid : ∀ s dt, (P.update s dt).satellite_id = s.satellite_id)
    (step i : ℕ) (hstep : step < T) (hi : i < sats.length)
    (sat1 : Satellite)
    (hsat1 : sat1 = iterUpdate P.update (period * 60 / T) (step + 1) (sats.get ⟨i, hi⟩))
    (hdist : ∀ g ∈ gss, ∀ g' ∈ gss, P.visible g sat1 = true → P.visible g' sat1 = true →
      P.snrOf sat1 g = P.snrOf sat1 g' → g = g') :
    (simulate_ground_station_only P sats gss T period).length = T * sats.length ∧
    ((simulate_ground_station_only P sats gss T period).filter
        (fun r => r.time_step == step)).length = sats.length ∧
    ∃ r, ((simulate_ground_station_only P sats gss T period).filter
        (fun r => r.time_step == step))[i]? = some r ∧
      r.time_step = step ∧
      r.satellite_id = (sats.get ⟨i, hi⟩).satellite_id ∧
      ((∃ g ∈ gss, P.visible g sat1 = true) →
        ∃ b ∈ gss, P.visible b sat1 = true ∧ r.ground_station_id = some b.station_id ∧
          ∀ g ∈ gss, P.visible g sat1 = true → g ≠ b →
            P.snrOf sat1 g < P.snrOf sat1 b) := by
  subst hsat1
  refine ⟨?_, ?_, ?_⟩
  · unfold simulate_ground_station_only
    exact sim_go_aux_length P (period * 60 / T) gss T 0 sats
  · have hfil := sim_go_aux_filter P (period * 60 / T) gss T 0 step sats hstep
    simp only [Nat.zero_add] at hfil
    unfold simulate_ground_station_only
    rw [hfil]
    simp
  · refine ⟨ground_record P step (period * 60 / T)
      (iterUpdate P.update (period * 60 / T) (step + 1) (sats.get ⟨i, hi⟩)) gss,
      sim_go_record_at P sats gss T period step i hstep hi,
      ground_record_time_step P step (period * 60 / T) _ gss, ?_, ?_⟩
    · rw [ground_record_sat_id]
      exact iterUpdate_sat_id P.update hid (period * 60 / T) (step + 1) _
    · intro hvis
      obtain ⟨b, hb, hv, heq, hmax⟩ := find_best_gs_some P _ gss hvis
      refine ⟨b, hb, hv, ?_, ?_⟩
      · unfold ground_record
        rw [heq]
      · intro g hg hvg hne
        refine lt_of_le_of_ne (hmax g hg hvg) ?_
        intro hEq
        exact hne (hdist g hg b hb hvg hv hEq)

/-- Witness fixture: a concrete satellite. -/
noncomputable def satW : Satellite :=
  { satellite_id := "SAT_01", position := ⟨7000000, 0, 0⟩, velocity := ⟨0, 7500, 0⟩,
    transmit_power_dBW := 20, antenna_gain_dBi := 20, frequency_GHz := 2.4,
    orbit_altitude_km := 500 }

/-- Witness fixture: a second concrete satellite. -/
noncomputable def satW2 : Satellite :=
  { satellite_id := "SAT_02", position := ⟨0, 7000000, 0⟩, velocity := ⟨-7500, 0, 0⟩,
    transmit_power_dBW := 20, antenna_gain_dBi := 20, frequency_GHz := 2.4,
    orbit_altitude_km := 500 }

/-- Witness fixture: a concrete ground station. -/
noncomputable def gsW : GroundStation :=
  { station_id := "GS_01", latitude_deg := 40.7128, longitude_deg := -74.0060,
    altitude_m := 0, antenna_gain_dBi := 30, system_temperature_K := 290 }

/-- Witness fixture: ground physics whose visibility test always succeeds. -/
noncomputable def visPhysics : GroundPhysics :=
  { update := fun s _ => s, visible := fun _ _ => true, snrOf := fun _ _ => 0,
    distOf := fun _ _ => 0, feasible := fun _ => true, latency := fun d => d }

/-- Witness fixture: ground physics whose visibility test always fails. -/
noncomputable def noVisPhysics : GroundPhysics :=
  { update := fun s _ => s, visible := fun _ _ => false, snrOf := fun _ _ => 0,
    distOf := fun _ _ => 0, feasible := fun _ => true, latency := fun d => d }

/-- C1 witness: one satellite, one station, one step. -/
theorem ground_only_one_record_best_snr_witness :
    (simulate_ground_station_only visPhysics [satW] [gsW] 1 90).length =
      1 * [satW].length :=
  (ground_only_one_record_best_snr visPhysics [satW] [gsW] 1 90
    (fun _ _ => rfl) 0 0 (by norm_num) (by simp) _ rfl
    (by
      intro g hg g' hg' _ _ _
      simp only [List.mem_singleton] at hg hg'
      rw [hg, hg'])).1

/-- C3: when no ground station is visible from a satellite at a step of the
ground-only policy, a record is still emitted for it (the stream slice for
that step contains an entry at the satellite's index — nothing is omitted and
the computation is total), carrying the sentinel values
`is_feasible = false`, `snr_dB = -∞`, `distance_m = NaN`, `latency_ms = NaN`,
`ground_station_id = None`, `coverage = 0`. -/
theorem ground_only_sentinel_record (P : GroundPhysics)
    (sats : List Satellite) (gss : List GroundStation) (T : ℕ) (period : ℝ)
    (step i : ℕ) (hstep : step < T) (hi : i < sats.length)
    (hnovis : ∀ g ∈ gss, P.visible g
      (iterUpdate P.update (period * 60 / T) (step + 1) (sats.get ⟨i, hi⟩)) = false) :
    ∃ r, ((simulate_ground_station_only P sats gss T period).filter
        (fun r => r.time_step == step))[i]? = some r ∧
      r.is_feasible = false ∧ r.snr_dB = ⊥ ∧ r.distance_m = none ∧
      r.latency_ms = none ∧ r.ground_station_id = none ∧ r.coverage = 0 := by
  have hnone := find_best_gs_none P
    (iterUpdate P.update (period * 60 / T) (step + 1) (sats.get ⟨i, hi⟩)) gss hnovis
  refine ⟨ground_record P step (period * 60 / T)
    (iterUpdate P.update (period * 60 / T) (step + 1) (sats.get ⟨i, hi⟩)) gss,
    sim_go_record_at P sats gss T period step i hstep hi, ?_⟩
  unfold ground_record
  rw [hnone]
  exact ⟨rfl, rfl, rfl, rfl, rfl, rfl⟩

/-- C3 witness: one satellite, one never-visible station, one step. -/
theorem ground_only_sentinel_record_witness :
    ∃ r, ((simulate_ground_station_only noVisPhysics [satW] [gsW] 1 90).filter
        (fun r => r.time_step == 0))[0]? = some r ∧
      r.is_feasible = false ∧ r.snr_dB = ⊥ ∧ r.distance_m = none ∧
      r.latency_ms = none ∧ r.ground_station_id = none ∧ r.coverage = 0 :=
  ground_only_sentinel_record noVisPhysics [satW] [gsW] 1 90 0 0 (by norm_num) (by simp)
    (fun g _ => rfl)

/-! ### Structure lemmas for the crosslinked policy -/

theorem map_iterUpdate_one (upd : Satellite → ℝ → Satellite) (dt : ℝ)
    (sats : List Satellite) :
    sats.map (iterUpdate upd dt 1) = sats.map fun s => upd s dt := by
  apply List.map_congr_left
  intro s _
  simp [iterUpdate]

theorem map_iterUpdate_succ (upd : Satellite → ℝ → Satellite) (dt : ℝ) (k : ℕ)
    (sats : List Satellite) :
    (sats.map fun s => upd s dt).map (iterUpdate upd dt k) =
      sats.map (iterUpdate upd dt (k + 1)) := by
  rw [List.map_map]
  apply List.map_congr_left
  intro s _
  show (fun s => upd s dt)^[k] (upd s dt) = (fun s => upd s dt)^[k + 1] s
  exact (Function.iterate_succ_apply _ _ _).symm

theorem cross_pairs_mem (P : CrossPhysics) (step : ℕ) (dt : ℝ) :
    ∀ (sats : List Satellite) (r : LinkRecord), r ∈ cross_pairs P step dt sats →
      r.time_step = step ∧ r.link_type = "satellite_to_satellite" := by
  intro sats
  induction sats with
  | nil => intro r hr; simp [cross_pairs] at hr
  | cons s1 rest ih =>
    intro r hr
    simp only [cross_pairs] at hr
    rcases List.mem_append.mp hr with h1 | h2
    · obtain ⟨s2, _, hsome⟩ := List.mem_filterMap.mp h1
      simp only [Satellite.is_visible_sat, if_true, Option.some.injEq] at hsome
      rw [← hsome]
      exact ⟨rfl, rfl⟩
    · exact ih r h2

theorem cross_pairs_length (P : CrossPhysics) (step : ℕ) (dt : ℝ) :
    ∀ sats : List Satellite,
      (cross_pairs P step dt sats).length = sats.length.choose 2 := by
  intro sats
  induction sats with
  | nil => simp [cross_pairs]
  | cons s1 rest ih =>
    simp only [cross_pairs, List.length_append, ih]
    have hchunk : (rest.filterMap fun s2 =>
        if Satellite.is_visible_sat s1 s2 then some (cross_sat_record P step dt s1 s2)
        else none).length = rest.length := by
      simp [Satellite.is_visible_sat]
    rw [hchunk, List.length_cons, Nat.choose_succ_succ, Nat.choose_one_right]

theorem filterMap_if_length {α β : Type} (l : List α) (p : α → Bool) (f : α → β) :
    (l.filterMap fun a => if p a then some (f a) else none).length =
      (l.filter p).length := by
  induction l with
  | nil => rfl
  | cons a t ih =>
    by_cases hp : p a
    · simp [List.filterMap_cons, List.filter_cons, hp, ih]
    · simp [List.filterMap_cons, List.filter_cons, hp, ih]

theorem cross_ground_mem (P : CrossPhysics) (step : ℕ) (dt : ℝ)
    (gss2 : List GroundStation) :
    ∀ (sats : List Satellite) (r : LinkRecord), r ∈ cross_ground P step dt gss2 sats →
      r.time_step = step ∧ r.link_type = "satellite_to_ground" := by
  intro sats
  induction sats with
  | nil => intro r hr; simp [cross_ground] at hr
  | cons sat rest ih =>
    intro r hr
    simp only [cross_ground] at hr
    rcases List.mem_append.mp hr with h1 | h2
    · obtain ⟨gs, _, hsome⟩ := List.mem_filterMap.mp h1
      by_cases hv : P.visibleGS gs sat
      · simp only [hv, if_true, Option.some.injEq] at hsome
        rw [← hsome]
        exact ⟨rfl, rfl⟩
      · simp [hv] at hsome
    · exact ih r h2

theorem cross_ground_length (P : CrossPhysics) (step : ℕ) (dt : ℝ)
    (gss2 : List GroundStation) :
    ∀ sats : List Satellite,
      (cross_ground P step dt gss2 sats).length =
        (sats.map fun s => (gss2.filter fun g => P.visibleGS g s).length).sum := by
  intro sats
  induction sats with
  | nil => simp [cross_ground]
  | cons sat rest ih =>
    simp only [cross_ground, List.length_append, ih, List.map_cons, List.sum_cons]
    rw [filterMap_if_length]

theorem sim_cross_aux_time_ge (P : CrossPhysics) (dt : ℝ) (gss : List GroundStation) :
    ∀ (n stepZ : ℕ) (sats : List Satellite) (r : LinkRecord),
      r ∈ sim_cross_aux P dt gss n stepZ sats → stepZ ≤ r.time_step := by
  intro n
  induction n with
  | zero => intro _ _ r hr; simp [sim_cross_aux] at hr
  | succ m ih =>
    intro stepZ sats r hr
    simp only [sim_cross_aux] at hr
    rcases List.mem_append.mp hr with h1 | h2
    · rcases List.mem_append.mp h1 with hp | hg
      · exact le_of_eq (cross_pairs_mem P stepZ dt _ r hp).1.symm
      · exact le_of_eq (cross_ground_mem P stepZ dt _ _ r hg).1.symm
    · exact le_trans (Nat.le_succ stepZ) (ih (stepZ + 1) _ r h2)

/-- The per-step slice of the crosslinked stream: the records whose
`time_step` is `stepZ + j` are exactly the pair records followed by the
first-two-stations ground records, both evaluated at the satellite states
after `j + 1` updates. -/
theorem sim_cross_aux_filter (P : CrossPhysics) (dt : ℝ) (gss : List GroundStation) :
    ∀ (n stepZ j : ℕ) (sats : List Satellite), j < n →
      (sim_cross_aux P dt gss n stepZ sats).filter (fun r => r.time_step == stepZ + j) =
        cross_pairs P (stepZ + j) dt (sats.map (iterUpdate P.update dt (j + 1))) ++
        cross_ground P (stepZ + j) dt (gss.take 2)
          (sats.map (iterUpdate P.update dt (j + 1))) := by
  intro n
  induction n with
  | zero => intro stepZ j sats hj; exact absurd hj (Nat.not_lt_zero j)
  | succ m ih =>
    intro stepZ j sats hj
    simp only [sim_cross_aux]
    rw [List.filter_append]
    cases j with
    | zero =>
      have hl : ((cross_pairs P stepZ dt (sats.map fun s => P.update s dt) ++
            cross_ground P stepZ dt (gss.take 2) (sats.map fun s => P.update s dt)).filter
            (fun r => r.time_step == stepZ + 0)) =
          cross_pairs P stepZ dt (sats.map fun s => P.update s dt) ++
            cross_ground P stepZ dt (gss.take 2) (sats.map fun s => P.update s dt) := by
        apply List.filter_eq_self.mpr
        intro r hr
        rcases List.mem_append.mp hr with hp | hg
        · have := (cross_pairs_mem P stepZ dt _ r hp).1
          simp [this]
        · have := (cross_ground_mem P stepZ dt _ _ r hg).1
          simp [this]
      have hrest : (sim_cross_aux P dt gss m (stepZ + 1)
            (sats.map fun s => P.update s dt)).filter
            (fun r => r.time_step == stepZ + 0) = [] := by
        rw [List.filter_eq_nil_iff]
        intro r hr
        have := sim_cross_aux_time_ge P dt gss m (stepZ + 1) _ r hr
        simp only [beq_iff_eq]
        omega
      rw [hl, hrest, List.append_nil, map_iterUpdate_one]
      simp only [Nat.add_zero]
    | succ j' =>
      have hl : ((cross_pairs P stepZ dt (sats.map fun s => P.update s dt) ++
            cross_ground P stepZ dt (gss.take 2) (sats.map fun s => P.update s dt)).filter
            (fun r => r.time_step == stepZ + (j' + 1))) = [] := by
        rw [List.filter_eq_nil_iff]
        intro r hr
        rcases List.mem_append.mp hr with hp | hg
        · have := (cross_pairs_mem P stepZ dt _ r hp).1
          simp only [this, beq_iff_eq]
          omega
        · have := (cross_ground_mem P stepZ dt _ _ r hg).1
          simp only [this, beq_iff_eq]
          omega
      rw [hl, List.nil_append]
      have harg : ∀ r : LinkRecord, (r.time_step == stepZ + (j' + 1)) =
          (r.time_step == stepZ + 1 + j') := by
        intro r
        have : stepZ + (j' + 1) = stepZ + 1 + j' := by omega
        rw [this]
      simp only [harg]
      rw [ih (stepZ + 1) j' (sats.map fun s => P.update s dt) (by omega)]
      rw [map_iterUpdate_succ]
      have hstep2 : stepZ + 1 + j' = stepZ + (j' + 1) := by omega
      rw [hstep2]

/-- C2: at every step of the crosslinked policy the emitted slice contains
exactly one satellite-to-satellite record per unordered pair —
`N·(N−1)/2` records, since satellite-to-satellite visibility is
unconditionally true — plus one satellite-to-ground record for each
(satellite, station) pair over only the first two ground stations of the
provided list where the station sees the satellite; no best-of selection. -/
theorem crosslink_counts (P : CrossPhysics) (sats : List Satellite)
    (gss : List GroundStation) (T : ℕ) (period : ℝ) (step : ℕ) (hstep : step < T) :
    ((simulate_crosslinked P sats gss T period).filter
        (fun r => r.time_step == step)).countP
        (fun r => r.link_type == "satellite_to_satellite") =
      sats.length * (sats.length - 1) / 2 ∧
    ((simulate_crosslinked P sats gss T period).filter
        (fun r => r.time_step == step)).countP
        (fun r => r.link_type == "satellite_to_ground") =
      ((sats.map (iterUpdate P.update (period * 60 / T) (step + 1))).map
        fun s => ((gss.take 2).filter fun g => P.visibleGS g s).length).sum := by
  have hfil := sim_cross_aux_filter P (period * 60 / T) gss T 0 step sats hstep
  simp only [Nat.zero_add] at hfil
  unfold simulate_crosslinked
  rw [hfil]
  constructor
  · rw [List.countP_append]
    have h1 : (cross_pairs P step (period * 60 / T)
          (sats.map (iterUpdate P.update (period * 60 / T) (step + 1)))).countP
          (fun r => r.link_type == "satellite_to_satellite") =
        (cross_pairs P step (period * 60 / T)
          (sats.map (iterUpdate P.update (period * 60 / T) (step + 1)))).length := by
      apply List.countP_eq_length.mpr
      intro r hr
      have := (cross_pairs_mem P step (period * 60 / T) _ r hr).2
      simp [this]
    have h2 : (cross_ground P step (period * 60 / T) (gss.take 2)
          (sats.map (iterUpdate P.update (period * 60 / T) (step + 1)))).countP
          (fun r => r.link_type == "satellite_to_satellite") = 0 := by
      apply List.countP_eq_zero.mpr
      intro r hr
      have := (cross_ground_mem P step (period * 60 / T) _ _ r hr).2
      simp [this]
    rw [h1, h2, cross_pairs_length, List.length_map, Nat.choose_two_right]
    omega
  · rw [List.countP_append]
    have h1 : (cross_pairs P step (period * 60 / T)
          (sats.map (iterUpdate P.update (period * 60 / T) (step + 1)))).countP
          (fun r => r.link_type == "satellite_to_ground") = 0 := by
      apply List.countP_eq_zero.mpr
      intro r hr
      have := (cross_pairs_mem P step (period * 60 / T) _ r hr).2
      simp [this]
    have h2 : (cross_ground P step (period * 60 / T) (gss.take 2)
          (sats.map (iterUpdate P.update (period * 60 / T) (step + 1)))).countP
          (fun r => r.link_type == "satellite_to_ground") =
        (cross_ground P step (period * 60 / T) (gss.take 2)
          (sats.map (iterUpdate P.update (period * 60 / T) (step + 1)))).length := by
      apply List.countP_eq_length.mpr
      intro r hr
      have := (cross_ground_mem P step (period * 60 / T) _ _ r hr).2
      simp [this]
    rw [h1, h2, cross_ground_length]
    omega

/-- Witness fixture: trivial crosslinked physics with always-visible ground
stations. -/
noncomputable def crossPhysW : CrossPhysics :=
  { update := fun s _ => s, visibleGS := fun _ _ => true,
    snrSat := fun _ _ => 0, distSat := fun _ _ => 0,
    snrGS := fun _ _ => 0, distGS := fun _ _ => 0,
    feasible := fun _ => true, latencySat := fun d => d, latencyGS := fun d => d }

/-- C2 witness: two satellites, one station, one step. -/
theorem crosslink_counts_witness :
    ((simulate_crosslinked crossPhysW [satW, satW2] [gsW] 1 90).filter
        (fun r => r.time_step == 0)).countP
        (fun r => r.link_type == "satellite_to_satellite") =
      [satW, satW2].length * ([satW, satW2].length - 1) / 2 :=
  (crosslink_counts crossPhysW [satW, satW2] [gsW] 1 90 0 (by norm_num)).1

/-! ### No configuration validation (C4) -/

theorem sim_go_aux_nil (P : GroundPhysics) (dt : ℝ) (gss : List GroundStation) :
    ∀ n stepZ : ℕ, sim_go_aux P dt gss n stepZ [] = [] := by
  intro n
  induction n with
  | zero => intro _; rfl
  | succ m ih => intro stepZ; simp [sim_go_aux, ih]

theorem sim_cross_aux_nil (P : CrossPhysics) (dt : ℝ) (gss : List GroundStation) :
    ∀ n stepZ : ℕ, sim_cross_aux P dt gss n stepZ [] = [] := by
  intro n
  induction n with
  | zero => intro _; rfl
  | succ m ih => intro stepZ; simp [sim_cross_aux, cross_pairs, cross_ground, ih]

/-- C4 counterexample: invoking the entry point (with the genuine physics)
on an empty satellite list and otherwise valid parameters does not fail
fast — it silently returns a successful result holding two empty record
streams. -/
theorem run_comparison_empty_sats_counterexample :
    run_comparison_simulation realGroundPhysics realCrossPhysics [] [gsW] 5 90 =
      Except.ok ([], []) := by
  unfold run_comparison_simulation
  rw [if_neg (by norm_num)]
  unfold simulate_ground_station_only simulate_crosslinked
  rw [sim_go_aux_nil, sim_cross_aux_nil]

/-- C4 amended: the entry point performs no configuration validation.  With
`time_steps = 0` it fails with a `ZeroDivisionError` raised while computing
`dt` (a slip of the arithmetic, not a configuration check); for any nonzero
number of steps it runs without validating anything — in particular an empty
satellite list silently yields a successful result with two empty streams. -/
theorem run_comparison_no_validation (PG : GroundPhysics) (PC : CrossPhysics)
    (sats : List Satellite) (gss : List GroundStation) (period : ℝ)
    (T : ℕ) (hT : T ≠ 0) :
    run_comparison_simulation PG PC sats gss 0 period =
      Except.error "ZeroDivisionError: division by zero" ∧
    run_comparison_simulation PG PC [] gss T period = Except.ok ([], []) := by
  constructor
  · unfold run_comparison_simulation
    rw [if_pos rfl]
  · unfold run_comparison_simulation
    rw [if_neg hT]
    unfold simulate_ground_station_only simulate_crosslinked
    rw [sim_go_aux_nil, sim_cross_aux_nil]

/-- C4 amended witness: three steps, empty satellite list. -/
theorem run_comparison_no_validation_witness :
    run_comparison_simulation realGroundPhysics realCrossPhysics [] [gsW] 3 90 =
      Except.ok ([], []) :=
  (run_comparison_no_validation realGroundPhysics realCrossPhysics [] [gsW] 90 3
    (by norm_num)).2

end OrbLink
